import Mathlib

/-!
Shallow embedding of the NEAR safebox contract (src/contract/src/lib.rs).

The contract is a struct Welcome holding a HashMap from String to Balance
(u128), with three public methods:

- deposit(hash): self.records.insert(hash, env::attached_deposit())
- get_deposit(hash): self.records.get(&hash) with default 0
- withdraw(hash): on a present key, assert!(deposit > 0, "Missing deposit"),
  then Promise::new(env::predecessor_account_id()).transfer(deposit),
  then self.records.insert(hash, 0) and return true; on an absent key,
  env::log("Wrong key") and return false.

The HashMap is modelled as a key-unique association list with lookup and
replace-or-append insert. The host environment (attached deposit and
predecessor account) is passed explicitly. A withdraw call that trips the
assertion is modelled as Except.error carrying the panic message; on NEAR a
panicking call is aborted and its state changes are reverted, which applyOp
reflects by leaving the state unchanged on the error path.
-/

/-- Keys are caller-supplied strings (Rust String). -/
abbrev Key := String

/-- Balances are NEAR u128 values; the contract performs no arithmetic on
them (only stores, compares to zero and copies), so naturals embed them
exactly. -/
abbrev Balance := Nat

/-- The slice of the host environment the contract reads: the value attached
to the call and the predecessor account that receives transfers. -/
structure Env where
  attached_deposit : Balance
  predecessor_account_id : String
deriving DecidableEq

/-- Lookup in the association-list model of HashMap String Balance. -/
def recordsGet : List (Key × Balance) → Key → Option Balance
  | [], _ => none
  | (k', v) :: rest, k => if k' = k then some v else recordsGet rest k

/-- Insert in the association-list model of HashMap: replace the binding of
the key when present, append it otherwise. -/
def recordsInsert : List (Key × Balance) → Key → Balance → List (Key × Balance)
  | [], k, v => [(k, v)]
  | (k', v') :: rest, k, v =>
      if k' = k then (k, v) :: rest else (k', v') :: recordsInsert rest k v

/-- The contract state: pub struct Welcome { records: HashMap String Balance }. -/
structure Welcome where
  records : List (Key × Balance)
deriving DecidableEq

/-- Welcome::default(): the empty map. -/
def defaultWelcome : Welcome := ⟨[]⟩

/-- One token transfer issued by Promise::new(account_id).transfer(amount). -/
structure Transfer where
  recipient : String
  amount : Balance
deriving DecidableEq

/-- Observable outcome of a withdraw call that did not panic: the new
contract state, the returned bool, the transfers issued and the log lines
emitted. -/
structure WithdrawResult where
  contract : Welcome
  value : Bool
  transfers : List Transfer
  logs : List String
deriving DecidableEq

/-- pub fn deposit(&mut self, hash: String): records the attached deposit
under the hash, overwriting any previous binding. -/
def Welcome.deposit (e : Env) (c : Welcome) (hash : Key) : Welcome :=
  ⟨recordsInsert c.records hash e.attached_deposit⟩

/-- pub fn get_deposit(&self, hash: String) -> Balance: the stored amount,
or 0 for an absent key. -/
def Welcome.get_deposit (c : Welcome) (hash : Key) : Balance :=
  match recordsGet c.records hash with
  | some d => d
  | none => 0

/-- pub fn withdraw(&mut self, hash: String) -> bool. A present key with a
positive amount pays the predecessor and zeroes the stored amount; a present
key with amount 0 trips assert! with message "Missing deposit", modelled as
Except.error; an absent key logs "Wrong key" and returns false with the
state untouched. -/
def Welcome.withdraw (e : Env) (c : Welcome) (hash : Key) :
    Except String WithdrawResult :=
  match recordsGet c.records hash with
  | some d =>
      if d > 0 then
        Except.ok ⟨⟨recordsInsert c.records hash 0⟩, true,
          [⟨e.predecessor_account_id, d⟩], []⟩
      else
        Except.error "Missing deposit"
  | none =>
      Except.ok ⟨c, false, [], ["Wrong key"]⟩

/-- One external call into the contract, with its host environment. -/
inductive Op where
  | deposit (e : Env) (hash : Key)
  | withdraw (e : Env) (hash : Key)
deriving DecidableEq

/-- Effect of one call on the contract state. A withdraw that panics aborts
the call, so the state is unchanged on the error path. -/
def applyOp (c : Welcome) : Op → Welcome
  | Op.deposit e h => Welcome.deposit e c h
  | Op.withdraw e h =>
      match Welcome.withdraw e c h with
      | Except.ok r => r.contract
      | Except.error _ => c

/-- Run a sequence of calls from a starting state. -/
def runOps (c : Welcome) (ops : List Op) : Welcome :=
  List.foldl applyOp c ops

/-- Whether a call is a deposit under the given key. -/
def touchesDeposit (op : Op) (k : Key) : Bool :=
  match op with
  | Op.deposit _ h => h = k
  | Op.withdraw _ _ => false

/-- A Paid outcome: the call completed and returned true. -/
def isPaid (x : Except String WithdrawResult) : Bool :=
  match x with
  | Except.ok r => r.value
  | Except.error _ => false

/-- A clean Rejected outcome: the call completed and returned false. -/
def isRejected (x : Except String WithdrawResult) : Bool :=
  match x with
  | Except.ok r => !r.value
  | Except.error _ => false

/-- Number of transfers issued by a withdraw call; a panicking call issues
none (the assertion fires before the Promise is created). -/
def numTransfers (x : Except String WithdrawResult) : Nat :=
  match x with
  | Except.ok r => r.transfers.length
  | Except.error _ => 0

theorem recordsGet_insert_self (r : List (Key × Balance)) (k : Key) (v : Balance) :
    recordsGet (recordsInsert r k v) k = some v := by
  induction r with
  | nil => simp [recordsInsert, recordsGet]
  | cons p rest ih =>
      obtain ⟨k', v'⟩ := p
      by_cases h : k' = k
      · simp [recordsInsert, recordsGet, h]
      · simp [recordsInsert, recordsGet, h, ih]

theorem recordsGet_insert_other (r : List (Key × Balance)) (k k' : Key) (v : Balance)
    (h : k' ≠ k) : recordsGet (recordsInsert r k v) k' = recordsGet r k' := by
  induction r with
  | nil => simp [recordsInsert, recordsGet, Ne.symm h]
  | cons p rest ih =>
      obtain ⟨k₀, v₀⟩ := p
      by_cases h0 : k₀ = k
      · subst h0
        simp [recordsInsert, recordsGet, Ne.symm h]
      · by_cases h1 : k₀ = k'
        · simp [recordsInsert, recordsGet, h0, h1, h]
        · simp [recordsInsert, recordsGet, h0, h1, ih]

theorem get_deposit_eq (c : Welcome) (k : Key) :
    Welcome.get_deposit c k = (recordsGet c.records k).getD 0 := by
  unfold Welcome.get_deposit
  cases recordsGet c.records k <;> rfl

/-- Claim C7: for every key k and environment attaching amount a, immediately
after deposit(k) the read get_deposit(k) returns exactly a. -/
theorem deposit_then_read (e : Env) (c : Welcome) (k : Key) :
    Welcome.get_deposit (Welcome.deposit e c k) k = e.attached_deposit := by
  simp [Welcome.deposit, get_deposit_eq, recordsGet_insert_self]

/-- Claim C4: deposit has replace semantics, not accumulate semantics: a
second deposit under the same key before any withdrawal overwrites the
recorded amount, so the read returns the second attached amount, and not the
sum whenever the first attached amount was nonzero. -/
theorem deposit_replaces (e1 e2 : Env) (c : Welcome) (k : Key) :
    Welcome.get_deposit (Welcome.deposit e2 (Welcome.deposit e1 c k) k) k =
      e2.attached_deposit
    ∧ (e1.attached_deposit ≠ 0 →
        Welcome.get_deposit (Welcome.deposit e2 (Welcome.deposit e1 c k) k) k ≠
          e1.attached_deposit + e2.attached_deposit) := by
  have hread : Welcome.get_deposit (Welcome.deposit e2 (Welcome.deposit e1 c k) k) k =
      e2.attached_deposit := by
    simp [Welcome.deposit, get_deposit_eq, recordsGet_insert_self]
  refine ⟨hread, fun h1 => ?_⟩
  rw [hread]
  simpa [self_eq_add_left] using h1

/-- Witness for deposit_replaces at the attached amounts 5 and 7. -/
theorem deposit_replaces_witness :
    Welcome.get_deposit
        (Welcome.deposit ⟨7, "bob"⟩ (Welcome.deposit ⟨5, "bob"⟩ ⟨[]⟩ "a") "a") "a" = 7
    ∧ Welcome.get_deposit
        (Welcome.deposit ⟨7, "bob"⟩ (Welcome.deposit ⟨5, "bob"⟩ ⟨[]⟩ "a") "a") "a" ≠ 5 + 7 :=
  ⟨(deposit_replaces ⟨5, "bob"⟩ ⟨7, "bob"⟩ ⟨[]⟩ "a").1,
   (deposit_replaces ⟨5, "bob"⟩ ⟨7, "bob"⟩ ⟨[]⟩ "a").2 (by decide)⟩

/-- Claim C2: for every key k whose stored balance is a > 0, withdraw(k)
returns true, issues exactly one transfer of exactly a to the predecessor
account, and afterward get_deposit(k) is 0. -/
theorem withdraw_positive_pays (e : Env) (c : Welcome) (k : Key) (a : Balance)
    (hk : recordsGet c.records k = some a) (ha : 0 < a) :
    Welcome.withdraw e c k =
      Except.ok ⟨⟨recordsInsert c.records k 0⟩, true,
        [⟨e.predecessor_account_id, a⟩], []⟩
    ∧ Welcome.get_deposit ⟨recordsInsert c.records k 0⟩ k = 0 := by
  constructor
  · simp [Welcome.withdraw, hk, ha]
  · simp [get_deposit_eq, recordsGet_insert_self]

/-- Witness for withdraw_positive_pays on the state binding key k to 5. -/
theorem withdraw_positive_pays_witness :
    Welcome.withdraw ⟨0, "carol"⟩ ⟨[("k", 5)]⟩ "k" =
      Except.ok ⟨⟨[("k", 0)]⟩, true, [⟨"carol", 5⟩], []⟩
    ∧ Welcome.get_deposit ⟨[("k", 0)]⟩ "k" = 0 := by
  have h := withdraw_positive_pays ⟨0, "carol"⟩ ⟨[("k", 5)]⟩ "k" 5 (by decide) (by decide)
  simpa [recordsInsert] using h

/-- Claim C3: for every key k present in the mapping with amount exactly 0,
withdraw(k) does not return a clean Rejected outcome: it trips the assertion
and aborts the call with the panic message "Missing deposit". -/
theorem withdraw_zero_balance_aborts (e : Env) (c : Welcome) (k : Key)
    (hk : recordsGet c.records k = some 0) :
    Welcome.withdraw e c k = Except.error "Missing deposit"
    ∧ isRejected (Welcome.withdraw e c k) = false := by
  constructor
  · simp [Welcome.withdraw, hk]
  · simp [Welcome.withdraw, hk, isRejected]

/-- Witness for withdraw_zero_balance_aborts on the state binding key k to 0. -/
theorem withdraw_zero_balance_aborts_witness :
    Welcome.withdraw ⟨0, "carol"⟩ ⟨[("k", 0)]⟩ "k" = Except.error "Missing deposit"
    ∧ isRejected (Welcome.withdraw ⟨0, "carol"⟩ ⟨[("k", 0)]⟩ "k") = false :=
  withdraw_zero_balance_aborts ⟨0, "carol"⟩ ⟨[("k", 0)]⟩ "k" (by decide)

/-- Claim C6 counterexample: on an absent key the diagnostic line actually
emitted is "Wrong key" with a capital W, not "wrong key" as the claim
states. -/
theorem withdraw_unknown_key_counterexample :
    Welcome.withdraw ⟨0, "carol"⟩ ⟨[]⟩ "a" =
      Except.ok ⟨⟨[]⟩, false, [], ["Wrong key"]⟩
    ∧ (["Wrong key"] : List String) ≠ ["wrong key"] := by
  constructor
  · rfl
  · decide

/-- Claim C6 (amended): for every key k absent from the mapping, withdraw(k)
returns false, emits the diagnostic message "Wrong key", performs no
transfer, and leaves the mapping unchanged with no entry created for k. -/
theorem withdraw_unknown_key (e : Env) (c : Welcome) (k : Key)
    (hk : recordsGet c.records k = none) :
    Welcome.withdraw e c k = Except.ok ⟨c, false, [], ["Wrong key"]⟩ := by
  simp [Welcome.withdraw, hk]

/-- Witness for withdraw_unknown_key on the empty ledger. -/
theorem withdraw_unknown_key_witness :
    Welcome.withdraw ⟨0, "carol"⟩ ⟨[]⟩ "a" =
      Except.ok ⟨⟨[]⟩, false, [], ["Wrong key"]⟩ :=
  withdraw_unknown_key ⟨0, "carol"⟩ ⟨[]⟩ "a" (by decide)

/-- Claim C1 counterexample: with key k held at 5, the first withdraw pays
and zeroes the entry, but the second withdraw on the resulting state panics
with "Missing deposit" instead of yielding a clean Rejected (false) outcome. -/
theorem double_withdraw_counterexample :
    Welcome.withdraw ⟨0, "carol"⟩ ⟨[("k", 5)]⟩ "k" =
      Except.ok ⟨⟨[("k", 0)]⟩, true, [⟨"carol", 5⟩], []⟩
    ∧ Welcome.withdraw ⟨0, "carol"⟩ ⟨[("k", 0)]⟩ "k" = Except.error "Missing deposit"
    ∧ isRejected (Welcome.withdraw ⟨0, "carol"⟩ ⟨[("k", 0)]⟩ "k") = false := by
  refine ⟨rfl, rfl, rfl⟩

/-- Claim C1 (amended): across two successive withdraw(k) calls, at most one
returns Paid and at most one transfer is issued in total; when the first
call pays, the second call on the zeroed key aborts with the assertion
message "Missing deposit" (transferring nothing) rather than returning a
clean Rejected (false). -/
theorem no_double_payout (e1 e2 : Env) (c : Welcome) (k : Key) :
    (isPaid (Welcome.withdraw e1 c k)).toNat +
      (isPaid (Welcome.withdraw e2 (applyOp c (Op.withdraw e1 k)) k)).toNat ≤ 1
    ∧ numTransfers (Welcome.withdraw e1 c k) +
        numTransfers (Welcome.withdraw e2 (applyOp c (Op.withdraw e1 k)) k) ≤ 1
    ∧ (isPaid (Welcome.withdraw e1 c k) = true →
        Welcome.withdraw e2 (applyOp c (Op.withdraw e1 k)) k =
          Except.error "Missing deposit") := by
  cases hk : recordsGet c.records k with
  | none =>
      simp [Welcome.withdraw, applyOp, hk, isPaid, numTransfers]
  | some d =>
      cases d with
      | zero =>
          simp [Welcome.withdraw, applyOp, hk, isPaid, numTransfers]
      | succ n =>
          have h2 : recordsGet (recordsInsert c.records k 0) k = some 0 :=
            recordsGet_insert_self c.records k 0
          simp [Welcome.withdraw, applyOp, hk, h2, isPaid, numTransfers]

/-- Witness for no_double_payout: on the state holding 5 under key k, the
first call pays and the second aborts with "Missing deposit". -/
theorem no_double_payout_witness :
    Welcome.withdraw ⟨0, "carol"⟩
        (applyOp ⟨[("k", 5)]⟩ (Op.withdraw ⟨0, "carol"⟩ "k")) "k" =
      Except.error "Missing deposit" :=
  (no_double_payout ⟨0, "carol"⟩ ⟨0, "carol"⟩ ⟨[("k", 5)]⟩ "k").2.2 (by decide)

/-- Claim C5 counterexample: a second deposit with a smaller attached value
shrinks the stored balance of key k from 2 to the positive value 1, although
the operation is a deposit, not a withdraw setting the balance to zero. -/
theorem balance_shrink_counterexample :
    Welcome.get_deposit ⟨[("k", 2)]⟩ "k" = 2
    ∧ applyOp ⟨[("k", 2)]⟩ (Op.deposit ⟨1, "bob"⟩ "k") = ⟨[("k", 1)]⟩
    ∧ Welcome.get_deposit ⟨[("k", 1)]⟩ "k" = 1
    ∧ 0 < Welcome.get_deposit ⟨[("k", 1)]⟩ "k"
    ∧ Welcome.get_deposit ⟨[("k", 1)]⟩ "k" < Welcome.get_deposit ⟨[("k", 2)]⟩ "k" := by
  refine ⟨rfl, rfl, rfl, by decide, by decide⟩

/-- Claim C5 (amended): the stored balance of a key k changes under a single
operation only through an operation on k itself: a deposit on k sets it to
the attached amount (which replaces, and may therefore shrink, the previous
balance), and a withdraw on k sets it to zero; no other operation changes
it. -/
theorem balance_change_characterized (c : Welcome) (op : Op) (k : Key)
    (h : Welcome.get_deposit (applyOp c op) k ≠ Welcome.get_deposit c k) :
    (∃ e, op = Op.deposit e k ∧
        Welcome.get_deposit (applyOp c op) k = e.attached_deposit)
    ∨ (∃ e, op = Op.withdraw e k ∧ Welcome.get_deposit (applyOp c op) k = 0) := by
  cases op with
  | deposit e hash =>
      by_cases hk : hash = k
      · subst hk
        exact Or.inl ⟨e, rfl, by
          simp [applyOp, Welcome.deposit, get_deposit_eq, recordsGet_insert_self]⟩
      · exact absurd (by
          simp [applyOp, Welcome.deposit, get_deposit_eq,
            recordsGet_insert_other c.records hash k e.attached_deposit (Ne.symm hk)]) h
  | withdraw e hash =>
      cases hget : recordsGet c.records hash with
      | none =>
          exact absurd (by simp [applyOp, Welcome.withdraw, hget]) h
      | some d =>
          cases d with
          | zero =>
              exact absurd (by simp [applyOp, Welcome.withdraw, hget]) h
          | succ n =>
              by_cases hk : hash = k
              · subst hk
                exact Or.inr ⟨e, rfl, by
                  simp [applyOp, Welcome.withdraw, hget, get_deposit_eq,
                    recordsGet_insert_self]⟩
              · exact absurd (by
                  simp [applyOp, Welcome.withdraw, hget, get_deposit_eq,
                    recordsGet_insert_other c.records hash k 0 (Ne.symm hk)]) h

/-- Witness for balance_change_characterized: depositing 5 under key a on the
empty ledger changes that key's balance, and the characterization names the
deposit as the cause. -/
theorem balance_change_characterized_witness :
    (∃ e, Op.deposit (⟨5, "bob"⟩ : Env) "a" = Op.deposit e "a"
        ∧ Welcome.get_deposit (applyOp ⟨[]⟩ (Op.deposit ⟨5, "bob"⟩ "a")) "a" =
            e.attached_deposit)
    ∨ (∃ e, Op.deposit (⟨5, "bob"⟩ : Env) "a" = Op.withdraw e "a"
        ∧ Welcome.get_deposit (applyOp ⟨[]⟩ (Op.deposit ⟨5, "bob"⟩ "a")) "a" = 0) :=
  balance_change_characterized ⟨[]⟩ (Op.deposit ⟨5, "bob"⟩ "a") "a" (by decide)

theorem absent_preserved (c : Welcome) (ops : List Op) (k : Key)
    (hc : recordsGet c.records k = none)
    (h : ∀ op ∈ ops, touchesDeposit op k = false) :
    recordsGet (runOps c ops).records k = none := by
  induction ops generalizing c with
  | nil => simpa [runOps] using hc
  | cons op rest ih =>
      have hop : touchesDeposit op k = false := h op (List.mem_cons_self op rest)
      have hrest : ∀ o ∈ rest, touchesDeposit o k = false :=
        fun o ho => h o (List.mem_cons_of_mem op ho)
      have hstep : recordsGet (applyOp c op).records k = none := by
        cases op with
        | deposit e hash =>
            have hne : hash ≠ k := by
              simpa [touchesDeposit] using hop
            simpa [applyOp, Welcome.deposit,
              recordsGet_insert_other c.records hash k e.attached_deposit
                (Ne.symm hne)] using hc
        | withdraw e hash =>
            cases hget : recordsGet c.records hash with
            | none => simpa [applyOp, Welcome.withdraw, hget] using hc
            | some d =>
                cases d with
                | zero => simpa [applyOp, Welcome.withdraw, hget] using hc
                | succ n =>
                    have hne : hash ≠ k := by
                      intro hh
                      subst hh
                      rw [hget] at hc
                      exact Option.noConfusion hc
                    simpa [applyOp, Welcome.withdraw, hget,
                      recordsGet_insert_other c.records hash k 0
                        (Ne.symm hne)] using hc
      have := ih (applyOp c op) hstep hrest
      simpa [runOps, List.foldl] using this

/-- Claim C8: a key that was never the target of any deposit call in a run
from the default state reads as 0 via get_deposit; the read is a total pure
function of the state and key, so it has no side effects and cannot fail. -/
theorem unknown_key_reads_zero (ops : List Op) (k : Key)
    (h : ∀ op ∈ ops, touchesDeposit op k = false) :
    Welcome.get_deposit (runOps defaultWelcome ops) k = 0 := by
  have habs := absent_preserved defaultWelcome ops k rfl h
  simp [get_deposit_eq, habs]

/-- Witness for unknown_key_reads_zero: after a run depositing only under
key a, key b reads as 0. -/
theorem unknown_key_reads_zero_witness :
    Welcome.get_deposit (runOps defaultWelcome [Op.deposit ⟨5, "bob"⟩ "a"]) "b" = 0 :=
  unknown_key_reads_zero [Op.deposit ⟨5, "bob"⟩ "a"] "b" (by decide)

/-- Claim C9: frame and atomicity of withdraw. For any other key the balance
is untouched by a withdraw call; any call that does not pay (clean rejection
or abort) leaves the whole state unchanged; a paying call zeroes the entry
of its argument key, which held a positive balance before. -/
theorem withdraw_frame (e : Env) (c : Welcome) (k k' : Key) (hne : k' ≠ k) :
    Welcome.get_deposit (applyOp c (Op.withdraw e k)) k' = Welcome.get_deposit c k'
    ∧ (isPaid (Welcome.withdraw e c k) = false → applyOp c (Op.withdraw e k) = c)
    ∧ (isPaid (Welcome.withdraw e c k) = true →
        Welcome.get_deposit (applyOp c (Op.withdraw e k)) k = 0
        ∧ 0 < Welcome.get_deposit c k) := by
  cases hk : recordsGet c.records k with
  | none =>
      simp [Welcome.withdraw, applyOp, hk, isPaid]
  | some d =>
      cases d with
      | zero =>
          simp [Welcome.withdraw, applyOp, hk, isPaid]
      | succ n =>
          refine ⟨?_, ?_, ?_⟩
          · simp [Welcome.withdraw, applyOp, hk, get_deposit_eq,
              recordsGet_insert_other c.records k k' 0 hne]
          · simp [Welcome.withdraw, applyOp, hk, isPaid]
          · intro _
            constructor
            · simp [Welcome.withdraw, applyOp, hk, get_deposit_eq,
                recordsGet_insert_self]
            · simp [get_deposit_eq, hk]

/-- Witness for withdraw_frame: a paying withdraw of the 5 held under key k
leaves key j untouched and zeroes key k, and a rejected withdraw on the
empty ledger leaves the state unchanged. -/
theorem withdraw_frame_witness :
    Welcome.get_deposit (applyOp ⟨[("k", 5)]⟩ (Op.withdraw ⟨0, "carol"⟩ "k")) "j" =
      Welcome.get_deposit ⟨[("k", 5)]⟩ "j"
    ∧ Welcome.get_deposit (applyOp ⟨[("k", 5)]⟩ (Op.withdraw ⟨0, "carol"⟩ "k")) "k" = 0
    ∧ 0 < Welcome.get_deposit ⟨[("k", 5)]⟩ "k"
    ∧ applyOp ⟨[]⟩ (Op.withdraw ⟨0, "carol"⟩ "a") = ⟨[]⟩ :=
  ⟨(withdraw_frame ⟨0, "carol"⟩ ⟨[("k", 5)]⟩ "k" "j" (by decide)).1,
   ((withdraw_frame ⟨0, "carol"⟩ ⟨[("k", 5)]⟩ "k" "j" (by decide)).2.2 (by decide)).1,
   ((withdraw_frame ⟨0, "carol"⟩ ⟨[("k", 5)]⟩ "k" "j" (by decide)).2.2 (by decide)).2,
   (withdraw_frame ⟨0, "carol"⟩ ⟨[]⟩ "a" "b" (by decide)).2.1 (by decide)⟩

/-- Claim C10: a deposit with zero attached value creates a present entry
holding 0, after which withdraw on that key aborts with the assertion
message "Missing deposit", while a never-deposited key also reads as 0 via
get_deposit yet withdraw on it returns a clean false with the "Wrong key"
log; both keys read as 0 but behave differently under withdraw. -/
theorem zero_deposit_vs_absent (e0 e : Env) (c : Welcome) (k k2 : Key)
    (h0 : e0.attached_deposit = 0)
    (h2 : recordsGet c.records k2 = none) :
    recordsGet (Welcome.deposit e0 c k).records k = some 0
    ∧ Welcome.get_deposit (Welcome.deposit e0 c k) k = 0
    ∧ Welcome.withdraw e (Welcome.deposit e0 c k) k = Except.error "Missing deposit"
    ∧ Welcome.get_deposit c k2 = 0
    ∧ Welcome.withdraw e c k2 = Except.ok ⟨c, false, [], ["Wrong key"]⟩ := by
  have hpres : recordsGet (Welcome.deposit e0 c k).records k = some 0 := by
    simp [Welcome.deposit, recordsGet_insert_self, h0]
  refine ⟨hpres, ?_, ?_, ?_, ?_⟩
  · simp [get_deposit_eq, hpres]
  · simp [Welcome.withdraw, hpres]
  · simp [get_deposit_eq, h2]
  · simp [Welcome.withdraw, h2]

/-- Witness for zero_deposit_vs_absent: deposit 0 under key a on the empty
ledger, compare with the never-deposited key b. -/
theorem zero_deposit_vs_absent_witness :
    recordsGet (Welcome.deposit ⟨0, "bob"⟩ ⟨[]⟩ "a").records "a" = some 0
    ∧ Welcome.get_deposit (Welcome.deposit ⟨0, "bob"⟩ ⟨[]⟩ "a") "a" = 0
    ∧ Welcome.withdraw ⟨0, "carol"⟩ (Welcome.deposit ⟨0, "bob"⟩ ⟨[]⟩ "a") "a" =
        Except.error "Missing deposit"
    ∧ Welcome.get_deposit ⟨[]⟩ "b" = 0
    ∧ Welcome.withdraw ⟨0, "carol"⟩ ⟨[]⟩ "b" =
        Except.ok ⟨⟨[]⟩, false, [], ["Wrong key"]⟩ :=
  zero_deposit_vs_absent ⟨0, "bob"⟩ ⟨0, "carol"⟩ ⟨[]⟩ "a" "b" rfl rfl
